import Mathlib

/-!
# Floating-point Fibonacci heap (`fibheap/fibheap.go`)

A shallow embedding of the `fibHeap` type and its eight methods, followed by the
properties of the specification stated over that embedding.

Conventions of the embedding:

* a `*fibHeap` receiver is a value of `fibHeap`; a method that could write the
  receiver returns the receiver's state after the call next to its Go result;
* `uint` is the 64-bit unsigned integer of a 64-bit target: a `Nat` below `2^64`,
  with `++` wrapping modulo `2^64`;
* a `*entry` is `Option`: `none` is `nil`; the link fields of an entry are
  addresses, which no method follows;
* `float64` priorities are only ever passed through, returned or replaced by a
  literal (`-42`, `42.0`); the code does no arithmetic and no comparison on them.
  They are modelled by the rationals their decimal literals denote;
* a nil-pointer dereference is the error result of `Except`.
-/

namespace fibheap

/-- Priorities: Go `float64`, named by their decimal literal. -/
abbrev float64 := ℚ

/-- Modulus of Go `uint` on a 64-bit target. -/
def uintMod : Nat := 2 ^ 64

/-- Go `type entry struct`: a node of the heap. -/
structure entry where
  degree : Int
  isMarked : Bool
  next : Option Nat
  prev : Option Nat
  child : Option Nat
  parent : Option Nat
  priority : float64
deriving DecidableEq

/-- Go `type fibHeap struct`: the pointer to the minimal element and the size. -/
structure fibHeap where
  min : Option entry
  size : Nat
deriving DecidableEq

/-- Run-time panics a method can raise. -/
inductive panic where
  | nilDereference
deriving DecidableEq

/-- Go `NewFloatFibHeap`: `&fibHeap{nil, 0}`. -/
def NewFloatFibHeap : fibHeap := ⟨none, 0⟩

/-- Go `(*fibHeap).Enqueue`: `heap.size++; return priority`.
The entry creation and the splice into the root list are commented out in the source. -/
def Enqueue (heap : fibHeap) (priority : float64) : fibHeap × float64 :=
  ({ heap with size := (heap.size + 1) % uintMod }, priority)

/-- Go `(*fibHeap).IsEmpty`: `heap.size == 0`. -/
def IsEmpty (heap : fibHeap) : Bool := heap.size == 0

/-- Go `(*fibHeap).Size`. -/
def Size (heap : fibHeap) : Nat := heap.size

/-- Go `(*fibHeap).Min`: `-42` on an empty heap, else `heap.min.priority`,
which panics when `heap.min` is nil. -/
def Min (heap : fibHeap) : Except panic float64 :=
  if IsEmpty heap then
    .ok (-42)
  else
    match heap.min with
    | none => .error panic.nilDereference
    | some e => .ok e.priority

/-- Go `(*fibHeap).DequeueMin`: `return 42.0` (the float64 constant 42); the receiver
is not written. -/
def DequeueMin (heap : fibHeap) : fibHeap × float64 := (heap, 42)

/-- Go `(*fibHeap).DecreaseKey`: `return newPriority`; the receiver is not written. -/
def DecreaseKey (heap : fibHeap) (oldPriority newPriority : float64) : fibHeap × float64 :=
  let _ := oldPriority
  (heap, newPriority)

/-- Go `(*fibHeap).Delete`: `return priority`; the receiver is not written. -/
def Delete (heap : fibHeap) (priority : float64) : fibHeap × float64 := (heap, priority)

/-- The three heaps after a call `heap.Merge(&other)`. -/
structure MergeResult where
  heap : fibHeap
  other : fibHeap
  result : fibHeap
deriving DecidableEq

/-- Go `(*fibHeap).Merge`: `return NewFloatFibHeap()`; neither the receiver nor the
argument is read or written (the statements after the `return` are commented out). -/
def Merge (heap other : fibHeap) : MergeResult :=
  { heap := heap, other := other, result := NewFloatFibHeap }

/-! ## Drivers: sequences of calls -/

/-- Calls `Enqueue` once per priority of the list, first to last. -/
def enqueueAll (heap : fibHeap) (ps : List float64) : fibHeap :=
  ps.foldl (fun h p => (Enqueue h p).1) heap

/-- Calls `DequeueMin` `n` times and collects the returned priorities in call order. -/
def dequeueN : Nat → fibHeap → fibHeap × List float64
  | 0, heap => (heap, [])
  | n + 1, heap =>
    let r := DequeueMin heap
    let rest := dequeueN n r.1
    (rest.1, r.2 :: rest.2)

/-- A method call of `FloatingFibonacciHeap` with its arguments. -/
inductive Call where
  | Enqueue (priority : float64)
  | Min
  | IsEmpty
  | Size
  | DequeueMin
  | DecreaseKey (oldPriority newPriority : float64)
  | Delete (priority : float64)
  | Merge (other : fibHeap)

/-- What a method call hands back to its caller. -/
inductive Returned where
  | float (x : float64)
  | bool (b : Bool)
  | uint (n : Nat)
  | heap (h : fibHeap)
  | panicked (e : panic)
deriving DecidableEq

/-- One method call on a receiver: the receiver after the call and what the call hands
back. The bodies of `Min`, `IsEmpty` and `Size` hold no assignment, so the receiver after
the call is the receiver before it; the other methods pass on the receiver computed by
their embedding. -/
def call (heap : fibHeap) : Call → fibHeap × Returned
  | .Enqueue priority => ((Enqueue heap priority).1, .float (Enqueue heap priority).2)
  | .Min =>
    (heap, match Min heap with
      | .ok x => .float x
      | .error e => .panicked e)
  | .IsEmpty => (heap, .bool (IsEmpty heap))
  | .Size => (heap, .uint (Size heap))
  | .DequeueMin => ((DequeueMin heap).1, .float (DequeueMin heap).2)
  | .DecreaseKey oldPriority newPriority =>
    ((DecreaseKey heap oldPriority newPriority).1,
      .float (DecreaseKey heap oldPriority newPriority).2)
  | .Delete priority => ((Delete heap priority).1, .float (Delete heap priority).2)
  | .Merge other => ((Merge heap other).heap, .heap (Merge heap other).result)

/-- Heap states reachable from `NewFloatFibHeap()` through `Enqueue`, `DequeueMin`,
`DecreaseKey`, `Delete` and `Merge`; for `Merge` the returned heap and the two input heaps
after the call. -/
inductive Reachable : fibHeap → Prop where
  | new : Reachable NewFloatFibHeap
  | enqueue (heap : fibHeap) (priority : float64) :
      Reachable heap → Reachable (Enqueue heap priority).1
  | dequeueMin (heap : fibHeap) : Reachable heap → Reachable (DequeueMin heap).1
  | decreaseKey (heap : fibHeap) (oldPriority newPriority : float64) :
      Reachable heap → Reachable (DecreaseKey heap oldPriority newPriority).1
  | delete (heap : fibHeap) (priority : float64) :
      Reachable heap → Reachable (Delete heap priority).1
  | mergeResult (heap other : fibHeap) :
      Reachable heap → Reachable other → Reachable (Merge heap other).result
  | mergeReceiver (heap other : fibHeap) :
      Reachable heap → Reachable other → Reachable (Merge heap other).heap
  | mergeArgument (heap other : fibHeap) :
      Reachable heap → Reachable other → Reachable (Merge heap other).other

/-- Delete in the words of the specification: `DecreaseKey` of the entry to `negInf`, a
priority below every possible one, followed by `DequeueMin`. Hands back the heap after
both calls and what `DequeueMin` returned. The value `negInf` (negative infinity in
float64) is a parameter: no method inspects it. -/
def deleteByDecreaseKey (heap : fibHeap) (priority negInf : float64) : fibHeap × float64 :=
  DequeueMin (DecreaseKey heap priority negInf).1

/-! ## Shared lemmas -/

theorem enqueueAll_nil (heap : fibHeap) : enqueueAll heap [] = heap := rfl

theorem enqueueAll_cons (heap : fibHeap) (p : float64) (ps : List float64) :
    enqueueAll heap (p :: ps) = enqueueAll (Enqueue heap p).1 ps := rfl

theorem enqueueAll_min (heap : fibHeap) (ps : List float64) :
    (enqueueAll heap ps).min = heap.min := by
  induction ps generalizing heap with
  | nil => rfl
  | cons p ps ih => rw [enqueueAll_cons, ih]; rfl

theorem enqueueAll_size (heap : fibHeap) (ps : List float64) :
    (enqueueAll heap ps).size % uintMod = (heap.size + ps.length) % uintMod := by
  induction ps generalizing heap with
  | nil => rfl
  | cons p ps ih =>
    rw [enqueueAll_cons, ih]
    simp only [Enqueue, List.length_cons, uintMod]
    omega

theorem enqueueAll_size_lt (heap : fibHeap) (ps : List float64) (h : heap.size < uintMod) :
    (enqueueAll heap ps).size < uintMod := by
  induction ps generalizing heap with
  | nil => exact h
  | cons p ps ih =>
    rw [enqueueAll_cons]
    apply ih
    exact Nat.mod_lt _ (by unfold uintMod; positivity)

theorem dequeueN_heap (n : Nat) (heap : fibHeap) : (dequeueN n heap).1 = heap := by
  induction n generalizing heap with
  | zero => rfl
  | succ n ih => simp only [dequeueN, DequeueMin, ih]

theorem dequeueN_values (n : Nat) (heap : fibHeap) :
    (dequeueN n heap).2 = List.replicate n (42 : float64) := by
  induction n generalizing heap with
  | zero => rfl
  | succ n ih => simp only [dequeueN, DequeueMin, ih, List.replicate_succ]

theorem Min_of_size_zero (heap : fibHeap) (h : heap.size = 0) : Min heap = Except.ok (-42) := by
  simp [Min, IsEmpty, h]

theorem Min_of_min_nil (heap : fibHeap) (h : heap.size ≠ 0) (hmin : heap.min = none) :
    Min heap = Except.error panic.nilDereference := by
  simp [Min, IsEmpty, h, hmin]

theorem Reachable_min (heap : fibHeap) (h : Reachable heap) : heap.min = none := by
  induction h with
  | new => rfl
  | enqueue heap priority _ ih => exact ih
  | dequeueMin heap _ ih => exact ih
  | decreaseKey heap oldPriority newPriority _ ih => exact ih
  | delete heap priority _ ih => exact ih
  | mergeResult heap other _ _ _ _ => rfl
  | mergeReceiver heap other _ _ ih _ => exact ih
  | mergeArgument heap other _ _ _ ih => exact ih

/-! ## Size and emptiness -/

/-- C3: after `n < 2^64` calls of `Enqueue` on a fresh heap (whatever the priorities)
`Size()` is `n`, and on every heap `IsEmpty()` is true exactly when `Size()` is `0`. -/
theorem C3_size_counts_enqueues (n : Nat) (ps : List float64)
    (hlen : ps.length = n) (hn : n < 2 ^ 64) :
    Size (enqueueAll NewFloatFibHeap ps) = n ∧
      ∀ heap : fibHeap, IsEmpty heap = true ↔ Size heap = 0 := by
  refine ⟨?_, fun heap => by simp [IsEmpty, Size]⟩
  have h1 := enqueueAll_size NewFloatFibHeap ps
  have h2 := enqueueAll_size_lt NewFloatFibHeap ps (by unfold NewFloatFibHeap uintMod; positivity)
  have h3 : NewFloatFibHeap.size = 0 := rfl
  rw [h3, Nat.zero_add, hlen] at h1
  unfold uintMod at h1 h2
  unfold Size
  rw [Nat.mod_eq_of_lt h2, Nat.mod_eq_of_lt hn] at h1
  exact h1

/-- C3, the example run: a new heap is empty, after one `Enqueue` the size is 1 and the
heap is not empty, after two the size is 2. -/
theorem C3_size_counts_enqueues_witness :
    ([15.77, -0.001] : List float64).length = 2 ∧ 2 < 2 ^ 64 ∧
      (Size (enqueueAll NewFloatFibHeap [15.77, -0.001]) = 2 ∧
        ∀ heap : fibHeap, IsEmpty heap = true ↔ Size heap = 0) :=
  ⟨rfl, by norm_num, C3_size_counts_enqueues 2 [15.77, -0.001] rfl (by norm_num)⟩

/-! ## Min after Enqueue -/

/-- C1, the code at the failing input: after `Enqueue(-1002.2001)` and `Enqueue(-0.001)`
on a fresh heap the heap is not empty but `min` is still nil, so `Min()` dereferences nil
and panics; it does not return the smallest priority `-1002.2001`. -/
theorem C1_min_after_enqueues_panics :
    IsEmpty (enqueueAll NewFloatFibHeap [-1002.2001, -0.001]) = false ∧
      (enqueueAll NewFloatFibHeap [-1002.2001, -0.001]).min = none ∧
      Min (enqueueAll NewFloatFibHeap [-1002.2001, -0.001]) =
        Except.error panic.nilDereference ∧
      Min (enqueueAll NewFloatFibHeap [-1002.2001, -0.001]) ≠ Except.ok (-1002.2001) := by
  refine ⟨rfl, rfl, rfl, ?_⟩
  intro h
  cases h

/-! ## DequeueMin -/

/-- C2, the code at the failing input: after enqueuing 5, 3, 8, 1, 9, 2 on a fresh heap,
six calls of `DequeueMin()` return 42 six times, not 1, 2, 3, 5, 8, 9, and the heap
still has `Size() = 6` and is not empty. -/
theorem C2_dequeue_returns_constant :
    (dequeueN 6 (enqueueAll NewFloatFibHeap [5, 3, 8, 1, 9, 2])).2 = [42, 42, 42, 42, 42, 42] ∧
      (dequeueN 6 (enqueueAll NewFloatFibHeap [5, 3, 8, 1, 9, 2])).2 ≠ [1, 2, 3, 5, 8, 9] ∧
      Size (dequeueN 6 (enqueueAll NewFloatFibHeap [5, 3, 8, 1, 9, 2])).1 = 6 ∧
      IsEmpty (dequeueN 6 (enqueueAll NewFloatFibHeap [5, 3, 8, 1, 9, 2])).1 = false := by
  refine ⟨rfl, ?_, rfl, rfl⟩
  rw [dequeueN_values]
  simp [List.replicate]

/-- C4, the code at the failing input: on the heap holding 15.77, -1002.2001 and -0.001
(`Size() = 3`) the sizes after one, two and three calls of `DequeueMin()` are 3, 3, 3,
not 2, 1, 0. -/
theorem C4_dequeue_keeps_size :
    Size (enqueueAll NewFloatFibHeap [15.77, -1002.2001, -0.001]) = 3 ∧
      Size (dequeueN 1 (enqueueAll NewFloatFibHeap [15.77, -1002.2001, -0.001])).1 = 3 ∧
      Size (dequeueN 2 (enqueueAll NewFloatFibHeap [15.77, -1002.2001, -0.001])).1 = 3 ∧
      Size (dequeueN 3 (enqueueAll NewFloatFibHeap [15.77, -1002.2001, -0.001])).1 = 3 :=
  ⟨rfl, rfl, rfl, rfl⟩

/-! ## Merge -/

/-- C5, the code at the failing input: merging the heap holding 15.77 (size 1) with the
heap holding -1002.2001 and -0.001 (size 2) returns a heap of size 0, not 3, whose `min`
is nil: it holds none of the entries. -/
theorem C5_merge_result_is_empty :
    Size (enqueueAll NewFloatFibHeap [15.77]) = 1 ∧
      Size (enqueueAll NewFloatFibHeap [-1002.2001, -0.001]) = 2 ∧
      Size (Merge (enqueueAll NewFloatFibHeap [15.77])
        (enqueueAll NewFloatFibHeap [-1002.2001, -0.001])).result = 0 ∧
      (Merge (enqueueAll NewFloatFibHeap [15.77])
        (enqueueAll NewFloatFibHeap [-1002.2001, -0.001])).result.min = none :=
  ⟨rfl, rfl, rfl, rfl⟩

/-- C6, the code at the failing input: after merging the heap holding 15.77 with the heap
holding -1002.2001 and -0.001, the receiver still has size 1 and the argument size 2;
neither is empty. -/
theorem C6_merge_keeps_inputs :
    Size (Merge (enqueueAll NewFloatFibHeap [15.77])
        (enqueueAll NewFloatFibHeap [-1002.2001, -0.001])).heap = 1 ∧
      IsEmpty (Merge (enqueueAll NewFloatFibHeap [15.77])
        (enqueueAll NewFloatFibHeap [-1002.2001, -0.001])).heap = false ∧
      Size (Merge (enqueueAll NewFloatFibHeap [15.77])
        (enqueueAll NewFloatFibHeap [-1002.2001, -0.001])).other = 2 ∧
      IsEmpty (Merge (enqueueAll NewFloatFibHeap [15.77])
        (enqueueAll NewFloatFibHeap [-1002.2001, -0.001])).other = false :=
  ⟨rfl, rfl, rfl, rfl⟩

/-! ## Empty heap -/

/-- C7 as stated fails: on the fresh heap (size 0) `Min()` does not fail, it returns the
float -42, and `DequeueMin()` returns the float 42; both are priorities `Enqueue` accepts. -/
theorem C7_empty_heap_returns_sentinel :
    Size NewFloatFibHeap = 0 ∧
      Min NewFloatFibHeap = Except.ok (-42) ∧
      (DequeueMin NewFloatFibHeap).2 = 42 ∧
      (Enqueue NewFloatFibHeap (-42)).2 = -42 ∧
      (Enqueue NewFloatFibHeap 42).2 = 42 ∧
      ¬ (∀ heap : fibHeap, Size heap = 0 → ∀ v : float64, Min heap ≠ Except.ok v) := by
  refine ⟨rfl, rfl, rfl, rfl, rfl, ?_⟩
  intro h
  exact h NewFloatFibHeap rfl (-42) rfl

/-- C7 as amended: on every heap with size 0, `Min()` takes the guarded branch and returns
the float -42 as an ordinary result, never reading `min`. -/
theorem C7_min_on_empty_is_minus_42 (heap : fibHeap) (h : Size heap = 0) :
    Min heap = Except.ok (-42) :=
  Min_of_size_zero heap h

/-- C7 as amended, at the fresh heap. -/
theorem C7_min_on_empty_is_minus_42_witness :
    Size NewFloatFibHeap = 0 ∧ Min NewFloatFibHeap = Except.ok (-42) :=
  ⟨rfl, C7_min_on_empty_is_minus_42 NewFloatFibHeap rfl⟩

/-! ## DecreaseKey -/

/-- C8 as stated fails: on the heap holding priority 5, `DecreaseKey(5, 7)` does not fail;
it returns 7, the new priority, although 7 is not smaller than 5. -/
theorem C8_decreaseKey_larger_returns_new :
    ¬ ((7 : float64) < 5) ∧
      (DecreaseKey (enqueueAll NewFloatFibHeap [5]) 5 7).2 = 7 := by
  refine ⟨by norm_num, rfl⟩

/-- C8 as amended: `DecreaseKey(p, q)` with `q` not smaller than `p` leaves the heap
(size and min) as it was, and with it the results of any later run of `DequeueMin()`. -/
theorem C8_decreaseKey_not_smaller_keeps_heap (heap : fibHeap) (p q : float64)
    (hq : ¬ q < p) (n : Nat) :
    (DecreaseKey heap p q).1 = heap ∧
      dequeueN n (DecreaseKey heap p q).1 = dequeueN n heap := by
  have _ := hq
  exact ⟨rfl, rfl⟩

/-- C8 as amended, at the heap holding priority 5 with `DecreaseKey(5, 7)` and one
later `DequeueMin()`. -/
theorem C8_decreaseKey_not_smaller_keeps_heap_witness :
    ¬ ((7 : float64) < 5) ∧
      ((DecreaseKey (enqueueAll NewFloatFibHeap [5]) 5 7).1 = enqueueAll NewFloatFibHeap [5] ∧
        dequeueN 1 (DecreaseKey (enqueueAll NewFloatFibHeap [5]) 5 7).1 =
          dequeueN 1 (enqueueAll NewFloatFibHeap [5])) :=
  ⟨by norm_num,
    C8_decreaseKey_not_smaller_keeps_heap (enqueueAll NewFloatFibHeap [5]) 5 7 (by norm_num) 1⟩

/-- C9, the code at the failing input: on the heap holding 15.77, -1002.2001 and -0.001,
`DecreaseKey(-1002.2001, -1003.0)` returns -1003.0, but the following `DequeueMin()`
returns 42 and `Min()` panics on the nil `min`; on the merge of the heaps holding 15.77 and
-1002.2001, -0.001 (size 0 in the code) `DequeueMin()` returns 42 and `Min()` returns -42. -/
theorem C9_decreaseKey_then_min_not_new :
    (DecreaseKey (enqueueAll NewFloatFibHeap [15.77, -1002.2001, -0.001])
        (-1002.2001) (-1003.0)).2 = -1003.0 ∧
      (DequeueMin (DecreaseKey (enqueueAll NewFloatFibHeap [15.77, -1002.2001, -0.001])
        (-1002.2001) (-1003.0)).1).2 = 42 ∧
      Min (DecreaseKey (enqueueAll NewFloatFibHeap [15.77, -1002.2001, -0.001])
        (-1002.2001) (-1003.0)).1 = Except.error panic.nilDereference ∧
      (DequeueMin (DecreaseKey (Merge (enqueueAll NewFloatFibHeap [15.77])
        (enqueueAll NewFloatFibHeap [-1002.2001, -0.001])).result
        (-1002.2001) (-1003.0)).1).2 = 42 ∧
      Min (DecreaseKey (Merge (enqueueAll NewFloatFibHeap [15.77])
        (enqueueAll NewFloatFibHeap [-1002.2001, -0.001])).result
        (-1002.2001) (-1003.0)).1 = Except.ok (-42) ∧
      (42 : float64) ≠ -1003.0 ∧ (-42 : float64) ≠ -1003.0 := by
  refine ⟨rfl, rfl, rfl, rfl, rfl, ?_, ?_⟩ <;> norm_num

/-! ## Delete -/

/-- C10, the code at the failing input: on the heap holding -0.001 and 15.77,
`Delete(-0.001)` returns -0.001 but `Size()` stays 2, and the next `DequeueMin()` returns 42,
not 15.77. -/
theorem C10_delete_keeps_heap :
    Size (enqueueAll NewFloatFibHeap [-0.001, 15.77]) = 2 ∧
      (Delete (enqueueAll NewFloatFibHeap [-0.001, 15.77]) (-0.001)).2 = -0.001 ∧
      Size (Delete (enqueueAll NewFloatFibHeap [-0.001, 15.77]) (-0.001)).1 = 2 ∧
      (DequeueMin (Delete (enqueueAll NewFloatFibHeap [-0.001, 15.77]) (-0.001)).1).2 = 42 ∧
      (42 : float64) ≠ 15.77 := by
  refine ⟨rfl, rfl, rfl, rfl, ?_⟩
  norm_num

/-! ## Priorities as identifiers -/

/-- C11 as stated fails: on the fresh heap, which holds no entry, `DecreaseKey(5, 3)` and
`Delete(5)` do not fail; they return 3 and 5 as ordinary results. -/
theorem C11_unknown_priority_returns_value :
    Size NewFloatFibHeap = 0 ∧
      (DecreaseKey NewFloatFibHeap 5 3).2 = 3 ∧
      (Delete NewFloatFibHeap 5).2 = 5 :=
  ⟨rfl, rfl, rfl⟩

/-- C11 as amended: on the heap built from a fresh one by enqueuing the priorities `ps`,
`DecreaseKey(p, q)` and `Delete(p)` with a priority `p` that was never enqueued leave the
heap as it was. -/
theorem C11_unknown_priority_keeps_heap (ps : List float64) (p q : float64) (hp : p ∉ ps) :
    (DecreaseKey (enqueueAll NewFloatFibHeap ps) p q).1 = enqueueAll NewFloatFibHeap ps ∧
      (Delete (enqueueAll NewFloatFibHeap ps) p).1 = enqueueAll NewFloatFibHeap ps := by
  have _ := hp
  exact ⟨rfl, rfl⟩

/-- C11 as amended, at the heap holding 15.77 with the priority 5, and `DecreaseKey(5, 3)`. -/
theorem C11_unknown_priority_keeps_heap_witness :
    (5 : float64) ∉ ([15.77] : List float64) ∧
      ((DecreaseKey (enqueueAll NewFloatFibHeap [15.77]) 5 3).1 =
          enqueueAll NewFloatFibHeap [15.77] ∧
        (Delete (enqueueAll NewFloatFibHeap [15.77]) 5).1 =
          enqueueAll NewFloatFibHeap [15.77]) :=
  ⟨by norm_num, C11_unknown_priority_keeps_heap [15.77] 5 3 (by norm_num)⟩

/-- C12, the code at the failing input: the fresh heap has size 0 and nil `min`; after
`Enqueue(15.77)` the size is 1 and `min` is still nil, so size is not zero although the min
reference is none. -/
theorem C12_enqueue_leaves_min_nil :
    Size NewFloatFibHeap = 0 ∧
      NewFloatFibHeap.min = none ∧
      Size (Enqueue NewFloatFibHeap 15.77).1 = 1 ∧
      (Enqueue NewFloatFibHeap 15.77).1.min = none :=
  ⟨rfl, rfl, rfl, rfl⟩

/-- C13 as stated fails: two calls `Enqueue(5)` in a row on a fresh heap return the same
value 5. -/
theorem C13_equal_priorities_equal_results :
    (Enqueue NewFloatFibHeap 5).2 = 5 ∧
      (Enqueue (Enqueue NewFloatFibHeap 5).1 5).2 = 5 ∧
      (Enqueue NewFloatFibHeap 5).2 = (Enqueue (Enqueue NewFloatFibHeap 5).1 5).2 :=
  ⟨rfl, rfl, rfl⟩

/-- C13 as amended: on every heap, two successive calls `Enqueue(p)` and `Enqueue(q)`
return different values exactly when `p` and `q` differ; the value returned is determined
by the priority alone. -/
theorem C13_results_differ_iff_priorities_differ (heap : fibHeap) (p q : float64) :
    (Enqueue heap p).2 ≠ (Enqueue (Enqueue heap p).1 q).2 ↔ p ≠ q :=
  Iff.rfl

/-- C14: on every heap, `Enqueue(p)` returns `p`; in the example run the three calls
return 15.77, -1002.2001 and -0.001. -/
theorem C14_enqueue_returns_priority :
    (∀ (heap : fibHeap) (p : float64), (Enqueue heap p).2 = p) ∧
      (Enqueue NewFloatFibHeap 15.77).2 = 15.77 ∧
      (Enqueue NewFloatFibHeap (-1002.2001)).2 = -1002.2001 ∧
      (Enqueue (Enqueue NewFloatFibHeap (-1002.2001)).1 (-0.001)).2 = -0.001 :=
  ⟨fun _ _ => rfl, rfl, rfl, rfl⟩

/-! ## Frame properties -/

/-- C15: the calls `Min()`, `IsEmpty()` and `Size()` leave the receiver as it was, size
and min alike, on every heap; on a heap with size 0 `Min()` hands back -42 and the heap is
as before. -/
theorem C15_observers_keep_heap (heap : fibHeap) :
    ((call heap Call.Min).1 = heap ∧
        (call heap Call.Min).1.size = heap.size ∧ (call heap Call.Min).1.min = heap.min) ∧
      ((call heap Call.IsEmpty).1 = heap ∧
        (call heap Call.IsEmpty).1.size = heap.size ∧
        (call heap Call.IsEmpty).1.min = heap.min) ∧
      ((call heap Call.Size).1 = heap ∧
        (call heap Call.Size).1.size = heap.size ∧ (call heap Call.Size).1.min = heap.min) ∧
      call NewFloatFibHeap Call.Min = (NewFloatFibHeap, Returned.float (-42)) :=
  ⟨⟨rfl, rfl, rfl⟩, ⟨rfl, rfl, rfl⟩, ⟨rfl, rfl, rfl⟩, rfl⟩

/-- C16: on every heap and for every priority `p`, `Delete(p)` and `DecreaseKey(p, negInf)`
followed by `DequeueMin()` leave the heap in the same state: same size and same min. -/
theorem C16_delete_refines_decrease_then_dequeue (heap : fibHeap) (p negInf : float64) :
    (Delete heap p).1 = (deleteByDecreaseKey heap p negInf).1 ∧
      Size (Delete heap p).1 = Size (deleteByDecreaseKey heap p negInf).1 ∧
      (Delete heap p).1.min = (deleteByDecreaseKey heap p negInf).1.min :=
  ⟨rfl, rfl, rfl⟩

/-- C17, the code at the failing input: after `Enqueue(1)` and `Enqueue(2)` on a fresh heap
one call of `DequeueMin()` returns 42 and leaves a heap that is not empty (size 2) whose
`min` is nil: no root at all is reachable from `min`, so `min` is not the root with the
smallest priority. -/
theorem C17_dequeue_leaves_min_nil :
    IsEmpty (enqueueAll NewFloatFibHeap [1, 2]) = false ∧
      (DequeueMin (enqueueAll NewFloatFibHeap [1, 2])).2 = 42 ∧
      IsEmpty (DequeueMin (enqueueAll NewFloatFibHeap [1, 2])).1 = false ∧
      Size (DequeueMin (enqueueAll NewFloatFibHeap [1, 2])).1 = 2 ∧
      (DequeueMin (enqueueAll NewFloatFibHeap [1, 2])).1.min = none :=
  ⟨rfl, rfl, rfl, rfl, rfl⟩

/-- C18: in every reachable heap state `min` is nil; `Min()` returns a value (and then
-42) exactly when the size is 0, and when the size is not 0 it dereferences the nil `min`. -/
theorem C18_reachable_min_is_nil (heap : fibHeap) (h : Reachable heap) :
    heap.min = none ∧
      ((∃ v, Min heap = Except.ok v) ↔ Size heap = 0) ∧
      (Size heap = 0 → Min heap = Except.ok (-42)) ∧
      (Size heap ≠ 0 → Min heap = Except.error panic.nilDereference) := by
  have hmin := Reachable_min heap h
  refine ⟨hmin, ⟨?_, ?_⟩, Min_of_size_zero heap, fun hs => Min_of_min_nil heap hs hmin⟩
  · rintro ⟨v, hv⟩
    by_contra hs
    rw [Min_of_min_nil heap hs hmin] at hv
    cases hv
  · intro hs
    exact ⟨-42, Min_of_size_zero heap hs⟩

/-- C18 at the heap after `Enqueue(15.77)` on a fresh heap. -/
theorem C18_reachable_min_is_nil_witness :
    Reachable (Enqueue NewFloatFibHeap 15.77).1 ∧
      ((Enqueue NewFloatFibHeap 15.77).1.min = none ∧
        ((∃ v, Min (Enqueue NewFloatFibHeap 15.77).1 = Except.ok v) ↔
          Size (Enqueue NewFloatFibHeap 15.77).1 = 0) ∧
        (Size (Enqueue NewFloatFibHeap 15.77).1 = 0 →
          Min (Enqueue NewFloatFibHeap 15.77).1 = Except.ok (-42)) ∧
        (Size (Enqueue NewFloatFibHeap 15.77).1 ≠ 0 →
          Min (Enqueue NewFloatFibHeap 15.77).1 = Except.error panic.nilDereference)) :=
  ⟨Reachable.enqueue _ _ Reachable.new,
    C18_reachable_min_is_nil (Enqueue NewFloatFibHeap 15.77).1
      (Reachable.enqueue _ _ Reachable.new)⟩

/-- C19: on every heap and for all arguments, `DequeueMin()`, `DecreaseKey(old, new)` and
`Delete(p)` leave size and min as they were, and return 42, `new` and `p`, whatever the heap. -/
theorem C19_stubs_keep_heap (heap : fibHeap) (oldPriority newPriority p : float64) :
    ((DequeueMin heap).1.size = heap.size ∧ (DequeueMin heap).1.min = heap.min ∧
        (DequeueMin heap).2 = 42) ∧
      ((DecreaseKey heap oldPriority newPriority).1.size = heap.size ∧
        (DecreaseKey heap oldPriority newPriority).1.min = heap.min ∧
        (DecreaseKey heap oldPriority newPriority).2 = newPriority) ∧
      ((Delete heap p).1.size = heap.size ∧ (Delete heap p).1.min = heap.min ∧
        (Delete heap p).2 = p) :=
  ⟨⟨rfl, rfl, rfl⟩, ⟨rfl, rfl, rfl⟩, ⟨rfl, rfl, rfl⟩⟩

/-- C20: for every receiver and every argument, `Merge` returns a heap with size 0 and nil
`min`, on which `IsEmpty()` is true, and leaves size and min of the receiver and of the
argument as they were. -/
theorem C20_merge_returns_fresh_heap (heap other : fibHeap) :
    ((Merge heap other).result = NewFloatFibHeap ∧
        Size (Merge heap other).result = 0 ∧ (Merge heap other).result.min = none ∧
        IsEmpty (Merge heap other).result = true) ∧
      ((Merge heap other).heap.size = heap.size ∧ (Merge heap other).heap.min = heap.min) ∧
      ((Merge heap other).other.size = other.size ∧
        (Merge heap other).other.min = other.min) :=
  ⟨⟨rfl, rfl, rfl, rfl⟩, ⟨rfl, rfl⟩, ⟨rfl, rfl⟩⟩

end fibheap
